import Mathlib

/-!
Verification of the decarbonisation repository's ingestion / aggregation /
alerting behaviour, as a shallow embedding of the Python sources.

Conventions of the embedding:
  * pandas DataFrames become Lean lists of records; a groupby becomes a
    filter over the list keyed on the grouping column;
  * Python floats become exact rationals (so `0.4` is `2/5`, `1.8` is `9/5`);
  * network calls and database round-trips are modelled by passing the
    response (or the stored table) as an explicit argument; an exception
    caught by a bare `except` that returns `None` becomes an `Option` that
    is `none`;
  * `datetime.now()` timestamps become an abstract `Nat` argument;
  * printing and plotting are I/O only and are dropped from the embedding.
-/

namespace Decarb

/-- Row of the `cloud_emissions` table / the
`Enhanced_Data_Center_Emissions_Database.csv` dataset.  Field names follow
the snake-case keys used by `realtime_monitor.py`; the CSV columns
`Cloud Service Provider`, `Location`, `Energy Consumption (MWh)`,
`Total Emissions (kg CO₂e)`, `Renewable Energy Usage (%)`, `AI Workload (%)`
and `PUE (Power Usage Effectiveness)` map to the fields in order. -/
structure EmissionRow where
  cloud_service_provider : String
  location : String
  energy_consumption : ℚ
  total_emissions : ℚ
  renewable_energy_usage : ℚ
  ai_workload : ℚ
  pue : ℚ
  uploaded_at : ℕ
deriving DecidableEq, Repr

/-- Embeds `SupabaseManager.upload_emissions_data` (supabase_manager.py lines
14-29): every record gets `uploaded_at = datetime.now()` stamped on it and the
batch is inserted (appended) into the `cloud_emissions` table.  There is no
conflict handling or key-based de-duplication in the insert. -/
def upload_emissions_data (now : ℕ) (store : List EmissionRow)
    (data : List EmissionRow) : List EmissionRow :=
  store ++ data.map (fun r => { r with uploaded_at := now })

/-- Embeds the per-provider re-aggregation of
`RealtimeEmissionMonitor.update_visualizations` (realtime_monitor.py lines
60-65): the whole `cloud_emissions` table is fetched and grouped by
`cloud_service_provider`; this gives the list of distinct providers. -/
def providerKeys (df : List EmissionRow) : List String :=
  (df.map (fun r => r.cloud_service_provider)).dedup

/-- Embeds `df.groupby('cloud_service_provider')['total_emissions'].sum()`
from `update_visualizations` (realtime_monitor.py line 65): each distinct
provider is paired with the sum of the `total_emissions` of its rows. -/
def groupSumEmissions (df : List EmissionRow) : List (String × ℚ) :=
  (providerKeys df).map (fun p =>
    (p, ((df.filter (fun r => r.cloud_service_provider = p)).map
      (fun r => r.total_emissions)).sum))

/-- Per-provider snapshot of the aggregation pipeline: the group of rows for
provider `p`, reported as `(count, sum_emissions, mean)`, where the mean is
derived on read as `sum / count`.  The count and sum are recomputed from the
full record set, exactly as `update_visualizations` recomputes from a fresh
`select('*')` of the table on every event. -/
def providerSnapshot (df : List EmissionRow) (p : String) : ℚ × ℚ × ℚ :=
  (((df.filter (fun r => r.cloud_service_provider = p)).length : ℚ),
    ((df.filter (fun r => r.cloud_service_provider = p)).map
      (fun r => r.total_emissions)).sum,
    ((df.filter (fun r => r.cloud_service_provider = p)).map
      (fun r => r.total_emissions)).sum /
      ((df.filter (fun r => r.cloud_service_provider = p)).length : ℚ))

/-- Modelled from the spec: the O(1) incremental bucket update of §4.3,
`(count, sum) ↦ (count + 1, sum + emissions)`, used to check that folding the
incremental update over a group agrees with recomputing from scratch. -/
def bucketApply (b : ℚ × ℚ) (e : ℚ) : ℚ × ℚ := (b.1 + 1, b.2 + e)

theorem bucketApply_foldl (l : List ℚ) (c s : ℚ) :
    l.foldl bucketApply (c, s) = (c + l.length, s + l.sum) := by
  induction l generalizing c s with
  | nil => simp [bucketApply]
  | cons x xs ih =>
      simp only [List.foldl_cons, bucketApply, ih, List.length_cons, List.sum_cons,
        Prod.mk.injEq]
      constructor <;> push_cast <;> ring

theorem lookup_map_key {α : Type} (keys : List String) (f : String → α)
    (p : String) (hp : p ∈ keys) :
    (keys.map (fun k => (k, f k))).lookup p = some (f p) := by
  induction keys with
  | nil => cases hp
  | cons k ks ih =>
      by_cases hk : p = k
      · subst hk; simp [List.lookup]
      · have hmem : p ∈ ks := by
          cases hp with
          | head => exact absurd rfl hk
          | tail _ h => exact h
        have hbeq : (p == k) = false := beq_eq_false_iff_ne.mpr hk
        simp only [List.map_cons, List.lookup, hbeq]
        exact ih hmem

theorem filter_upload (now : ℕ) (rs : List EmissionRow) (p : String) :
    (upload_emissions_data now [] rs).filter
        (fun r => r.cloud_service_provider = p) =
      (rs.filter (fun r => r.cloud_service_provider = p)).map
        (fun r => { r with uploaded_at := now }) := by
  simp only [upload_emissions_data, List.nil_append]
  rw [List.filter_map]
  rfl

theorem map_emissions_stamp (now : ℕ) (g : List EmissionRow) :
    (g.map (fun r => { r with uploaded_at := now })).map
        (fun r => r.total_emissions) =
      g.map (fun r => r.total_emissions) := by
  rw [List.map_map]
  rfl

theorem snapshot_upload (now : ℕ) (rs : List EmissionRow) (p : String) :
    providerSnapshot (upload_emissions_data now [] rs) p =
      (((rs.filter (fun r => r.cloud_service_provider = p)).length : ℚ),
        ((rs.filter (fun r => r.cloud_service_provider = p)).map
          (fun r => r.total_emissions)).sum,
        ((rs.filter (fun r => r.cloud_service_provider = p)).map
          (fun r => r.total_emissions)).sum /
          ((rs.filter (fun r => r.cloud_service_provider = p)).length : ℚ)) := by
  simp only [providerSnapshot]
  rw [filter_upload, map_emissions_stamp, List.length_map]

theorem snapshot_perm (df df2 : List EmissionRow) (p : String)
    (h : df.Perm df2) : providerSnapshot df p = providerSnapshot df2 p := by
  have hf : (df.filter (fun r => r.cloud_service_provider = p)).Perm
      (df2.filter (fun r => r.cloud_service_provider = p)) := h.filter _
  have hl := hf.length_eq
  have hs := (hf.map (fun r => r.total_emissions)).sum_eq
  simp [providerSnapshot, hl, hs]

/-- Record of the scenario in the spec: provider `A`, location `X`,
emissions `100`. -/
def recA100 : EmissionRow :=
  { cloud_service_provider := "A", location := "X", energy_consumption := 0,
    total_emissions := 100, renewable_energy_usage := 0, ai_workload := 0,
    pue := 1, uploaded_at := 0 }

/-- Record of the scenario in the spec: provider `A`, location `X`,
emissions `200`. -/
def recA200 : EmissionRow :=
  { recA100 with total_emissions := 200 }

theorem snapshot_scenario :
    providerSnapshot (upload_emissions_data 0 [] [recA100, recA200]) "A"
      = (2, 300, 150) := by
  norm_num [providerSnapshot, upload_emissions_data, recA100, recA200]

/-- C1: the per-provider aggregate produced by the system (group by provider;
count, sum of emissions, mean derived as sum/count) equals the values obtained
by recomputing from the full record set: the groupby sum of
`update_visualizations` agrees with the filter-based recomputation, the
snapshot is exactly the recomputed (count, sum, sum/count), the incremental
one-record bucket update folded over the group gives the same (count, sum),
the result is independent of insertion order, and the concrete scenario of
inserting `{A, X, 100}` and `{A, X, 200}` reports count 2, sum 300, mean 150. -/
theorem provider_aggregate_matches_recompute (now : ℕ)
    (rs rs2 : List EmissionRow) (p : String)
    (hp : p ∈ providerKeys (upload_emissions_data now [] rs))
    (hperm : rs.Perm rs2) :
    (groupSumEmissions (upload_emissions_data now [] rs)).lookup p =
      some (providerSnapshot (upload_emissions_data now [] rs) p).2.1 ∧
    providerSnapshot (upload_emissions_data now [] rs) p =
      (((rs.filter (fun r => r.cloud_service_provider = p)).length : ℚ),
        ((rs.filter (fun r => r.cloud_service_provider = p)).map
          (fun r => r.total_emissions)).sum,
        ((rs.filter (fun r => r.cloud_service_provider = p)).map
          (fun r => r.total_emissions)).sum /
          ((rs.filter (fun r => r.cloud_service_provider = p)).length : ℚ)) ∧
    ((rs.filter (fun r => r.cloud_service_provider = p)).map
        (fun r => r.total_emissions)).foldl bucketApply (0, 0) =
      (((rs.filter (fun r => r.cloud_service_provider = p)).length : ℚ),
        ((rs.filter (fun r => r.cloud_service_provider = p)).map
          (fun r => r.total_emissions)).sum) ∧
    providerSnapshot (upload_emissions_data now [] rs) p =
      providerSnapshot (upload_emissions_data now [] rs2) p ∧
    providerSnapshot (upload_emissions_data 0 [] [recA100, recA200]) "A" =
      (2, 300, 150) := by
  refine ⟨?_, snapshot_upload now rs p, ?_, ?_, snapshot_scenario⟩
  · exact lookup_map_key _ _ _ hp
  · rw [bucketApply_foldl]
    simp [List.length_map]
  · exact snapshot_perm _ _ p ((hperm.map _).append_left [])

/-- Witness for C1 at the concrete scenario input. -/
theorem provider_aggregate_matches_recompute_witness :
    ("A" ∈ providerKeys (upload_emissions_data 0 [] [recA100, recA200]) ∧
      List.Perm [recA100, recA200] [recA200, recA100]) ∧
    providerSnapshot (upload_emissions_data 0 [] [recA100, recA200]) "A" =
      (2, 300, 150) :=
  ⟨⟨by decide, by decide⟩,
    (provider_aggregate_matches_recompute 0 [recA100, recA200]
      [recA200, recA100] "A" (by decide) (by decide)).2.2.2.2⟩

/-- C2 counterexample: applying the record `{A, X, 100}` a second time (same
composite key) is not a no-op: the store receives a second copy and the
provider bucket reports count 2, sum 200 instead of the single-application
count 1, sum 100.  `upload_emissions_data` performs a plain insert with no
key-based de-duplication. -/
theorem duplicate_apply_not_idempotent_counterexample :
    providerSnapshot (upload_emissions_data 2
        (upload_emissions_data 1 [] [recA100]) [recA100]) "A" ≠
      providerSnapshot (upload_emissions_data 1 [] [recA100]) "A" ∧
    providerSnapshot (upload_emissions_data 2
        (upload_emissions_data 1 [] [recA100]) [recA100]) "A" = (2, 200, 100) ∧
    providerSnapshot (upload_emissions_data 1 [] [recA100]) "A" =
      (1, 100, 100) := by
  norm_num [providerSnapshot, upload_emissions_data, recA100, Prod.ext_iff]

/-- C2 amended: applying the same emission record a second time is not a
no-op.  The upload path appends the record again (stamping a fresh
`uploaded_at`), so the second application increments the provider bucket's
count by 1 and its emissions sum by the record's emissions. -/
theorem duplicate_apply_appends (now : ℕ) (store : List EmissionRow)
    (r : EmissionRow) :
    upload_emissions_data now store [r] =
      store ++ [{ r with uploaded_at := now }] ∧
    (providerSnapshot (upload_emissions_data now store [r])
        r.cloud_service_provider).1 =
      (providerSnapshot store r.cloud_service_provider).1 + 1 ∧
    (providerSnapshot (upload_emissions_data now store [r])
        r.cloud_service_provider).2.1 =
      (providerSnapshot store r.cloud_service_provider).2.1 +
        r.total_emissions := by
  refine ⟨rfl, ?_, ?_⟩ <;>
    simp [upload_emissions_data, providerSnapshot, List.filter_append]

/-! Embedding of `dashboard_new.py`: the alert evaluator `check_alerts`
(lines 279-311) and the derived columns of `load_data` (lines 26-42). -/

/-- Alert severity as used by `check_alerts`. -/
inductive AlertLevel
  | critical
  | warning
  | info
deriving DecidableEq, Repr

/-- Alert dictionary built by `check_alerts`.  The `message` and `details`
strings are formatting only; the embedding keeps the facility count that is
interpolated into the message. -/
structure Alert where
  level : AlertLevel
  facilities : ℕ
deriving DecidableEq, Repr

/-- Embeds `pandas.Series.mean`: sum divided by length. -/
def pdMean (l : List ℚ) : ℚ := l.sum / (l.length : ℚ)

/-- Embeds `emissions_threshold = df['Total Emissions (kg CO₂e)'].mean() * 1.5`
(dashboard_new.py line 284). -/
def emissions_threshold (df : List EmissionRow) : ℚ :=
  pdMean (df.map (fun r => r.total_emissions)) * (3 / 2)

/-- Embeds `high_emitters = df[df['Total Emissions (kg CO₂e)'] >
emissions_threshold]` (line 285): strict greater-than comparison. -/
def high_emitters (df : List EmissionRow) : List EmissionRow :=
  df.filter (fun r => r.total_emissions > emissions_threshold df)

/-- Embeds `low_renewable = df[df['Renewable Energy Usage (%)'] < 30]`
(line 294): strict less-than comparison. -/
def low_renewable (df : List EmissionRow) : List EmissionRow :=
  df.filter (fun r => r.renewable_energy_usage < 30)

/-- Embeds `inefficient = df[df['PUE (Power Usage Effectiveness)'] > 1.8]`
(line 303): strict greater-than comparison, 1.8 modelled as 9/5. -/
def inefficient (df : List EmissionRow) : List EmissionRow :=
  df.filter (fun r => r.pue > 9 / 5)

/-- Embeds `check_alerts` (dashboard_new.py lines 279-311): a pure function of
the current data with no internal state.  Each of the three conditions appends
its alert whenever its filtered set is non-empty. -/
def check_alerts (df : List EmissionRow) : List Alert :=
  (if high_emitters df ≠ [] then
    [{ level := AlertLevel.critical, facilities := (high_emitters df).length }]
  else []) ++
  (if low_renewable df ≠ [] then
    [{ level := AlertLevel.warning, facilities := (low_renewable df).length }]
  else []) ++
  (if inefficient df ≠ [] then
    [{ level := AlertLevel.info, facilities := (inefficient df).length }]
  else [])

/-- Row template for the alert examples: provider `P`, renewable 50 percent
and PUE 1.5, so only the emissions rule can fire. -/
def rowE (e : ℚ) : EmissionRow :=
  { cloud_service_provider := "P", location := "L", energy_consumption := 1,
    total_emissions := e, renewable_energy_usage := 50, ai_workload := 0,
    pue := 3 / 2, uploaded_at := 0 }

/-- Data on which the emissions rule is triggered: mean is 250, threshold is
375 and the 400-emissions row exceeds it. -/
def dfAlert : List EmissionRow := [rowE 100, rowE 400]

theorem check_alerts_dfAlert :
    check_alerts dfAlert = [{ level := AlertLevel.critical, facilities := 1 }] := by
  norm_num [check_alerts, high_emitters, low_renewable, inefficient,
    emissions_threshold, pdMean, dfAlert, rowE]

/-- C3 counterexample: alert evaluation is not edge-triggered.  On data whose
emissions rule is (and stays) triggered, two successive evaluations each emit
the critical AlertEvent: `check_alerts` keeps no triggered state, so a second
event is emitted while the rule remains continuously triggered. -/
theorem check_alerts_retrigger_counterexample :
    check_alerts dfAlert =
      [{ level := AlertLevel.critical, facilities := 1 }] ∧
    [dfAlert, dfAlert].map check_alerts =
      [[{ level := AlertLevel.critical, facilities := 1 }],
        [{ level := AlertLevel.critical, facilities := 1 }]] :=
  ⟨check_alerts_dfAlert, by simp [check_alerts_dfAlert]⟩

/-- C3 amended: alert evaluation is stateless and level-triggered:
`check_alerts` depends only on the data passed to it, and the critical alert
is emitted at every evaluation at which the emissions condition holds, so a
sequence of evaluations with the condition continuously true emits the event
at every element, not only on a false-to-true transition. -/
theorem check_alerts_level_triggered (df : List EmissionRow)
    (h : high_emitters df ≠ []) :
    ({ level := AlertLevel.critical,
        facilities := (high_emitters df).length } : Alert) ∈ check_alerts df ∧
    ∀ n : ℕ, (List.replicate n df).map check_alerts =
      List.replicate n (check_alerts df) := by
  refine ⟨?_, fun n => List.map_replicate ..⟩
  simp [check_alerts, h]

/-- Witness for C3 amended at the concrete triggered data. -/
theorem check_alerts_level_triggered_witness :
    high_emitters dfAlert ≠ [] ∧
    (({ level := AlertLevel.critical,
        facilities := (high_emitters dfAlert).length } : Alert) ∈
      check_alerts dfAlert ∧
    ∀ n : ℕ, (List.replicate n dfAlert).map check_alerts =
      List.replicate n (check_alerts dfAlert)) :=
  have h : high_emitters dfAlert ≠ [] := by
    norm_num [high_emitters, emissions_threshold, pdMean, dfAlert, rowE]
  ⟨h, check_alerts_level_triggered dfAlert h⟩

/-- Data with a row exactly at the emissions threshold: mean is 200, so the
threshold is 300, and the second row's emissions are exactly 300. -/
def dfEq : List EmissionRow := [rowE 100, rowE 300]

/-- C4 counterexample: exact threshold equality does not count as triggered.
In `dfEq` the threshold evaluates to 300 and a row has emissions exactly 300,
yet `check_alerts` raises no alert at all, because the comparison
`total_emissions > threshold` is strict. -/
theorem threshold_equality_not_triggered_counterexample :
    emissions_threshold dfEq = 300 ∧
    rowE 300 ∈ dfEq ∧
    (rowE 300).total_emissions = 300 ∧
    check_alerts dfEq = [] := by
  refine ⟨?_, by simp [dfEq], by norm_num [rowE], ?_⟩ <;>
    norm_num [check_alerts, high_emitters, low_renewable, inefficient,
      emissions_threshold, pdMean, dfEq, rowE]

/-- C4 amended: the threshold comparison of the emissions rule is strict, not
inclusive: a row is in `high_emitters` exactly when its emissions are strictly
greater than the threshold, and a row whose emissions equal the threshold is
never triggered.  There is no trigger state to reset: evaluation is stateless. -/
theorem threshold_comparison_strict (df : List EmissionRow) (r : EmissionRow)
    (hr : r ∈ df) :
    (r ∈ high_emitters df ↔ r.total_emissions > emissions_threshold df) ∧
    (r.total_emissions = emissions_threshold df → r ∉ high_emitters df) := by
  constructor
  · simp [high_emitters, List.mem_filter, hr]
  · intro he hmem
    rw [high_emitters, List.mem_filter] at hmem
    have := of_decide_eq_true hmem.2
    rw [he] at this
    exact lt_irrefl _ this

/-- Witness for C4 amended at the row sitting exactly on the threshold. -/
theorem threshold_comparison_strict_witness :
    rowE 300 ∈ dfEq ∧
    ((rowE 300 ∈ high_emitters dfEq ↔
      (rowE 300).total_emissions > emissions_threshold dfEq) ∧
    ((rowE 300).total_emissions = emissions_threshold dfEq →
      rowE 300 ∉ high_emitters dfEq)) :=
  have h : rowE 300 ∈ dfEq := by simp [dfEq]
  ⟨h, threshold_comparison_strict dfEq (rowE 300) h⟩

/-- Embeds `df['Energy Efficiency'] = df['Energy Consumption (MWh)'] /
df['Total Emissions (kg CO₂e)']` (dashboard_new.py line 31). -/
def energy_efficiency (r : EmissionRow) : ℚ :=
  r.energy_consumption / r.total_emissions

/-- Embeds `pandas.Series.max` for a non-empty column: the maximum of the
list, folded from its first element. -/
def colMax (l : List ℚ) : ℚ := l.foldl max (l.headD 0)

/-- Embeds `df['Sustainability Score']` (dashboard_new.py lines 32-34).  The
Python float weights `0.4`, `0.3`, `0.3` are modelled as the exact rationals
2/5, 3/10 and 3/10. -/
def sustainability_score (df : List EmissionRow) (r : EmissionRow) : ℚ :=
  r.renewable_energy_usage / 100 * (2 / 5) +
    (2 - r.pue) / 1 * (3 / 10) +
    energy_efficiency r / colMax (df.map energy_efficiency) * (3 / 10)

/-- Embeds the derived-column part of `load_data` (dashboard_new.py lines
26-42): every row is paired with its Energy Efficiency and Sustainability
Score columns. -/
def load_data (df : List EmissionRow) : List (EmissionRow × ℚ × ℚ) :=
  df.map (fun r => (r, energy_efficiency r, sustainability_score df r))

/-- Written from the words of claim C9, for comparison with the code
embedding: the weighted blend `(renewable_usage_pct / 100) * 0.4 +
((2.0 - pue) / 1.0) * 0.3 + (energy_efficiency / max energy_efficiency) * 0.3`. -/
def claim_sustainability_score (df : List EmissionRow) (r : EmissionRow) : ℚ :=
  (r.renewable_energy_usage / 100) * (2 / 5) +
    ((2 - r.pue) / 1) * (3 / 10) +
    (energy_efficiency r / colMax (df.map energy_efficiency)) * (3 / 10)

/-- C9: for every loaded data row, the Sustainability Score produced by
`load_data` equals the weighted blend of claim C9 with the fixed weights
0.4 / 0.3 / 0.3. -/
theorem sustainability_score_formula (df : List EmissionRow)
    (r : EmissionRow) (hr : r ∈ df) :
    (r, energy_efficiency r, claim_sustainability_score df r) ∈ load_data df ∧
    sustainability_score df r = claim_sustainability_score df r := by
  refine ⟨?_, rfl⟩
  exact List.mem_map_of_mem _ hr

/-- Witness for C9 at a concrete loaded dataset. -/
theorem sustainability_score_formula_witness :
    rowE 100 ∈ dfAlert ∧
    ((rowE 100, energy_efficiency (rowE 100),
        claim_sustainability_score dfAlert (rowE 100)) ∈ load_data dfAlert ∧
      sustainability_score dfAlert (rowE 100) =
        claim_sustainability_score dfAlert (rowE 100)) :=
  have h : rowE 100 ∈ dfAlert := by simp [dfAlert]
  ⟨h, sustainability_score_formula dfAlert (rowE 100) h⟩

/-! Embedding of `api_collector.py`: `CarbonDataCollector.__init__`,
`_make_api_request` and the per-provider collectors (lines 12-134). -/

/-- JSON object returned by a provider API, as a finite map of numeric
fields; `payload.get(key, 0)` becomes a lookup with default 0. -/
abbrev Json := List (String × ℚ)

/-- Embeds `data.get(key, 0)` on a parsed JSON dict. -/
def jget (d : Json) (k : String) : ℚ := (d.lookup k).getD 0

/-- State built by `CarbonDataCollector.__init__` (api_collector.py lines
12-20): the three API keys as read from the environment.  `os.getenv`
returns `None` for an absent variable, hence the `Option`. -/
structure CarbonDataCollector where
  gcp_api_key : Option String
  aws_api_key : Option String
  azure_api_key : Option String
deriving DecidableEq, Repr

/-- Embeds `CarbonDataCollector.__init__` (lines 12-20): the keys are stored
exactly as `os.getenv` returns them, with no emptiness or presence check, and
construction always succeeds (it is a total function into the state). -/
def carbonDataCollectorInit (env : String → Option String) :
    CarbonDataCollector :=
  { gcp_api_key := env "GCP_API_KEY", aws_api_key := env "AWS_API_KEY",
    azure_api_key := env "AZURE_API_KEY" }

/-- Embeds how a Python f-string renders an optional value: `None` is
rendered as the text `None`. -/
def pyStr : Option String → String
  | some s => s
  | none => "None"

/-- Embeds the `Authorization` header of `collect_gcp_data` (lines 50-53):
`f'Bearer {self.gcp_api_key}'`, built unconditionally from the stored key. -/
def gcpAuthHeader (c : CarbonDataCollector) : String :=
  "Bearer " ++ pyStr c.gcp_api_key

/-- Embeds `_make_api_request` (api_collector.py lines 34-44): the network
outcome is passed in as an argument; a `requests` exception is caught,
printed, and turned into `None`, otherwise the parsed JSON body is returned. -/
def make_api_request (response : Option Json) : Option Json := response

/-- Standardized row built by each per-provider collector. -/
structure ProviderRow where
  timestamp : ℕ
  provider : String
  energy_consumption : ℚ
  carbon_emissions : ℚ
  data_transfer : ℚ
deriving DecidableEq, Repr

/-- Embeds `collect_gcp_data` (lines 46-66): on a truthy response dict one
standardized row is built with `.get` defaults; a falsy response (request
failure `None`, or an empty dict) yields the empty DataFrame. -/
def collect_gcp_data (now : ℕ) (response : Option Json) : List ProviderRow :=
  match make_api_request response with
  | some d =>
      if d = [] then []
      else [{ timestamp := now, provider := "GCP",
              energy_consumption := jget d "energy_kwh",
              carbon_emissions := jget d "carbon_kg",
              data_transfer := jget d "network_gb" }]
  | none => []

/-- Embeds `collect_aws_data` (lines 68-88). -/
def collect_aws_data (now : ℕ) (response : Option Json) : List ProviderRow :=
  match make_api_request response with
  | some d =>
      if d = [] then []
      else [{ timestamp := now, provider := "AWS",
              energy_consumption := jget d "energy_consumption",
              carbon_emissions := jget d "co2_emissions",
              data_transfer := jget d "data_transfer" }]
  | none => []

/-- Embeds `collect_azure_data` (lines 90-110). -/
def collect_azure_data (now : ℕ) (response : Option Json) : List ProviderRow :=
  match make_api_request response with
  | some d =>
      if d = [] then []
      else [{ timestamp := now, provider := "Azure",
              energy_consumption := jget d "energy_usage",
              carbon_emissions := jget d "carbon_footprint",
              data_transfer := jget d "network_usage" }]
  | none => []

/-- Embeds `collect_cloud_data` (lines 112-134): the three per-provider
collectors are called in order and their frames concatenated; `save_raw_data`
is file I/O and is dropped. -/
def collect_cloud_data (now : ℕ) (gcp aws azure : Option Json) :
    List ProviderRow :=
  collect_gcp_data now gcp ++ collect_aws_data now aws ++
    collect_azure_data now azure

/-- Sample AWS response payload. -/
def awsSample : Json :=
  [("energy_consumption", 5), ("co2_emissions", 7), ("data_transfer", 2)]

/-- Sample Azure response payload. -/
def azureSample : Json :=
  [("energy_usage", 4), ("carbon_footprint", 6), ("network_usage", 1)]

/-- C6 counterexample: collecting from 3 sources where the GCP request fails
yields the 2 successful rows and zero error values, not 2 batches plus one
`CollectionError`: the failing source contributes the empty list, so the
failure is swallowed rather than reported as an error value. -/
theorem failing_source_yields_no_error_counterexample :
    collect_gcp_data 0 none = [] ∧
    collect_cloud_data 0 none (some awsSample) (some azureSample) =
      [{ timestamp := 0, provider := "AWS", energy_consumption := 5,
          carbon_emissions := 7, data_transfer := 2 },
        { timestamp := 0, provider := "Azure", energy_consumption := 4,
          carbon_emissions := 6, data_transfer := 1 }] := by
  constructor <;> rfl

/-- C6 amended: collection is isolated per source, but a failing source
yields an empty batch rather than a `CollectionError` value: with the GCP
request failing and the other two succeeding, the combined result is exactly
the two successful rows, the failing source contributes the empty list, and
no error value of any kind appears in the output. -/
theorem per_source_isolation (now : ℕ) (a z : Json) (ha : a ≠ [])
    (hz : z ≠ []) :
    collect_gcp_data now none = [] ∧
    collect_cloud_data now none (some a) (some z) =
      [{ timestamp := now, provider := "AWS",
          energy_consumption := jget a "energy_consumption",
          carbon_emissions := jget a "co2_emissions",
          data_transfer := jget a "data_transfer" },
        { timestamp := now, provider := "Azure",
          energy_consumption := jget z "energy_usage",
          carbon_emissions := jget z "carbon_footprint",
          data_transfer := jget z "network_usage" }] := by
  refine ⟨rfl, ?_⟩
  simp [collect_cloud_data, collect_gcp_data, collect_aws_data,
    collect_azure_data, make_api_request, ha, hz]

/-- Witness for C6 amended at the sample payloads. -/
theorem per_source_isolation_witness :
    (awsSample ≠ [] ∧ azureSample ≠ []) ∧
    (collect_gcp_data 0 none = [] ∧
    collect_cloud_data 0 none (some awsSample) (some azureSample) =
      [{ timestamp := 0, provider := "AWS",
          energy_consumption := jget awsSample "energy_consumption",
          carbon_emissions := jget awsSample "co2_emissions",
          data_transfer := jget awsSample "data_transfer" },
        { timestamp := 0, provider := "Azure",
          energy_consumption := jget azureSample "energy_usage",
          carbon_emissions := jget azureSample "carbon_footprint",
          data_transfer := jget azureSample "network_usage" }]) :=
  ⟨⟨by decide, by decide⟩,
    per_source_isolation 0 awsSample azureSample (by decide) (by decide)⟩

/-- GCP payload with a negative energy reading. -/
def negGcp : Json := [("energy_kwh", -5), ("carbon_kg", 3)]

/-- C7 counterexample: a payload whose `energy_kwh` is negative (outside the
declared range) is not rejected with a `NormalizationError`: `collect_gcp_data`
produces a normal record carrying the raw negative value. -/
theorem out_of_range_passed_through_counterexample :
    collect_gcp_data 0 (some negGcp) =
      [{ timestamp := 0, provider := "GCP", energy_consumption := -5,
          carbon_emissions := 3, data_transfer := 0 }] ∧
    ((-5 : ℚ) < 0) := by
  constructor
  · rfl
  · norm_num

/-- C7 amended: no range validation is performed: every numeric field of a
truthy payload is read with `.get(key, 0)` and passed through verbatim into
the produced row, whatever its value (negative energy included), and a
missing field silently defaults to 0; no error value is ever produced. -/
theorem gcp_fields_passed_unvalidated (now : ℕ) (d : Json) (hd : d ≠ []) :
    collect_gcp_data now (some d) =
      [{ timestamp := now, provider := "GCP",
          energy_consumption := jget d "energy_kwh",
          carbon_emissions := jget d "carbon_kg",
          data_transfer := jget d "network_gb" }] ∧
    (∀ v : ℚ, jget (("energy_kwh", v) :: d) "energy_kwh" = v) ∧
    jget ([] : Json) "energy_kwh" = 0 := by
  refine ⟨?_, ?_, rfl⟩
  · simp [collect_gcp_data, make_api_request, hd]
  · intro v
    simp [jget, List.lookup]

/-- Witness for C7 amended at the negative-energy payload. -/
theorem gcp_fields_passed_unvalidated_witness :
    negGcp ≠ [] ∧
    (collect_gcp_data 0 (some negGcp) =
      [{ timestamp := 0, provider := "GCP",
          energy_consumption := jget negGcp "energy_kwh",
          carbon_emissions := jget negGcp "carbon_kg",
          data_transfer := jget negGcp "network_gb" }] ∧
    (∀ v : ℚ, jget (("energy_kwh", v) :: negGcp) "energy_kwh" = v) ∧
    jget ([] : Json) "energy_kwh" = 0) :=
  ⟨by decide, gcp_fields_passed_unvalidated 0 negGcp (by decide)⟩

/-- C8 counterexample: with every environment variable absent, construction
of the collector still succeeds (no `ConfigurationError` exists in the code),
the GCP request is prepared with the degenerate header `Bearer None`, and a
failed request then yields the empty result: exactly the silent empty result
the claim rules out. -/
theorem missing_credentials_not_rejected_counterexample :
    carbonDataCollectorInit (fun _ => none) =
      { gcp_api_key := none, aws_api_key := none, azure_api_key := none } ∧
    gcpAuthHeader (carbonDataCollectorInit (fun _ => none)) = "Bearer None" ∧
    collect_gcp_data 7 none = [] := by
  exact ⟨rfl, rfl, rfl⟩

/-- C8 amended: credentials are read from the environment and used without
any validation: the constructor stores whatever `os.getenv` returns, an absent
GCP key produces the request header `Bearer None`, and the collection then
proceeds; when the request fails the result is a silent empty list, not a
`ConfigurationError`. -/
theorem credentials_unvalidated (env : String → Option String)
    (h : env "GCP_API_KEY" = none) :
    carbonDataCollectorInit env =
      { gcp_api_key := none, aws_api_key := env "AWS_API_KEY",
        azure_api_key := env "AZURE_API_KEY" } ∧
    gcpAuthHeader (carbonDataCollectorInit env) = "Bearer None" ∧
    collect_gcp_data 0 none = [] := by
  refine ⟨?_, ?_, rfl⟩ <;> simp [carbonDataCollectorInit, gcpAuthHeader, pyStr, h]

/-- Witness for C8 amended at the empty environment. -/
theorem credentials_unvalidated_witness :
    ((fun _ : String => (none : Option String)) "GCP_API_KEY" = none) ∧
    (carbonDataCollectorInit (fun _ => none) =
      { gcp_api_key := none,
        aws_api_key := (fun _ : String => (none : Option String)) "AWS_API_KEY",
        azure_api_key :=
          (fun _ : String => (none : Option String)) "AZURE_API_KEY" } ∧
    gcpAuthHeader (carbonDataCollectorInit (fun _ => none)) = "Bearer None" ∧
    collect_gcp_data 0 none = []) :=
  ⟨rfl, credentials_unvalidated (fun _ => none) rfl⟩

/-! Embedding of the metric-upload aggregations of `supabase_manager.py`
(lines 31-71). -/

/-- Embeds numpy's rounding to an integer (round half to even), which
`DataFrame.round` uses. -/
def roundHalfEven (q : ℚ) : ℤ :=
  if q - ⌊q⌋ < 1 / 2 then ⌊q⌋
  else if 1 / 2 < q - ⌊q⌋ then ⌊q⌋ + 1
  else if Even ⌊q⌋ then ⌊q⌋ else ⌊q⌋ + 1

/-- Embeds `.round(2)`: round half to even at the second decimal place. -/
def round2 (q : ℚ) : ℚ := (roundHalfEven (q * 100) : ℚ) / 100

/-- Row of the `provider_metrics` table written by
`upload_provider_metrics`. -/
structure ProviderMetric where
  provider : String
  total_emissions : ℚ
  energy_consumption : ℚ
  renewable_energy_usage : ℚ
  ai_workload : ℚ
  pue : ℚ
  calculated_at : ℕ
deriving DecidableEq, Repr

/-- Embeds one group of `upload_provider_metrics` (supabase_manager.py lines
31-51): the rows of provider `p` aggregated with `'sum'` on emissions and
energy and `'mean'` on renewable usage, AI workload and PUE, all rounded to
two decimals, stamped with `calculated_at`. -/
def provider_metric (now : ℕ) (df : List EmissionRow) (p : String) :
    ProviderMetric :=
  { provider := p
    total_emissions := round2
      (((df.filter (fun r => r.cloud_service_provider = p)).map
        (fun r => r.total_emissions)).sum)
    energy_consumption := round2
      (((df.filter (fun r => r.cloud_service_provider = p)).map
        (fun r => r.energy_consumption)).sum)
    renewable_energy_usage := round2
      (pdMean ((df.filter (fun r => r.cloud_service_provider = p)).map
        (fun r => r.renewable_energy_usage)))
    ai_workload := round2
      (pdMean ((df.filter (fun r => r.cloud_service_provider = p)).map
        (fun r => r.ai_workload)))
    pue := round2
      (pdMean ((df.filter (fun r => r.cloud_service_provider = p)).map
        (fun r => r.pue)))
    calculated_at := now }

/-- Embeds `upload_provider_metrics` (lines 31-51): one `ProviderMetric`
record per distinct provider is inserted into the `provider_metrics` table.
Pandas sorts the group keys; the key order is irrelevant to the per-key
records examined here, so first-appearance order is used. -/
def upload_provider_metrics (now : ℕ) (df : List EmissionRow) :
    List ProviderMetric :=
  ((df.map (fun r => r.cloud_service_provider)).dedup).map
    (provider_metric now df)

/-- Row of the `location_metrics` table written by
`upload_location_metrics`. -/
structure LocationMetric where
  location : String
  total_emissions : ℚ
  energy_consumption : ℚ
  renewable_energy_usage : ℚ
  calculated_at : ℕ
deriving DecidableEq, Repr

/-- Embeds one group of `upload_location_metrics` (supabase_manager.py lines
53-71): the rows of location `loc` aggregated with `'mean'` on emissions,
energy and renewable usage, rounded to two decimals. -/
def location_metric (now : ℕ) (df : List EmissionRow) (loc : String) :
    LocationMetric :=
  { location := loc
    total_emissions := round2
      (pdMean ((df.filter (fun r => r.location = loc)).map
        (fun r => r.total_emissions)))
    energy_consumption := round2
      (pdMean ((df.filter (fun r => r.location = loc)).map
        (fun r => r.energy_consumption)))
    renewable_energy_usage := round2
      (pdMean ((df.filter (fun r => r.location = loc)).map
        (fun r => r.renewable_energy_usage)))
    calculated_at := now }

/-- Embeds `upload_location_metrics` (lines 53-71). -/
def upload_location_metrics (now : ℕ) (df : List EmissionRow) :
    List LocationMetric :=
  ((df.map (fun r => r.location)).dedup).map (location_metric now df)

/-- Row template for the metric-upload examples: provider `A`, location `X`. -/
def mrow (em en ren : ℚ) : EmissionRow :=
  { cloud_service_provider := "A", location := "X", energy_consumption := en,
    total_emissions := em, renewable_energy_usage := ren, ai_workload := 0,
    pue := 1, uploaded_at := 0 }

/-- Dataset for the C5 counterexample: one provider with two rows whose
renewable usages are 10 and 30 (mean 20, sum 40). -/
def dfC5 : List EmissionRow := [mrow 5 2 10, mrow 7 4 30]

/-- C5 counterexample: a mean value is stored in a persisted aggregate.  For
`dfC5` the written `provider_metrics` record carries renewable usage 20,
which is the group mean and is none of the group's count (2), sum (40),
minimum (10) or maximum (30); the written `location_metrics` record likewise
stores the mean of the emissions (6), not their sum (12). -/
theorem provider_metrics_store_mean_counterexample :
    (provider_metric 0 dfC5 "A").renewable_energy_usage = 20 ∧
    pdMean ((dfC5.filter (fun r => r.cloud_service_provider = "A")).map
      (fun r => r.renewable_energy_usage)) = 20 ∧
    ((20 : ℚ) ≠ 2 ∧ (20 : ℚ) ≠ 40 ∧ (20 : ℚ) ≠ 10 ∧ (20 : ℚ) ≠ 30) ∧
    upload_provider_metrics 0 dfC5 = [provider_metric 0 dfC5 "A"] ∧
    (location_metric 0 dfC5 "X").total_emissions = 6 ∧
    ((dfC5.filter (fun r => r.location = "X")).map
      (fun r => r.total_emissions)).sum = 12 := by
  refine ⟨?_, ?_, by norm_num, ?_, ?_, ?_⟩ <;>
    norm_num [provider_metric, location_metric, upload_provider_metrics,
      pdMean, round2, roundHalfEven, dfC5, mrow]

theorem find_map_key {α : Type} (keys : List String) (f : String → α)
    (g : α → String) (hg : ∀ k, g (f k) = k) (p : String) (hp : p ∈ keys) :
    (keys.map f).find? (fun x => g x == p) = some (f p) := by
  induction keys with
  | nil => cases hp
  | cons k ks ih =>
      by_cases hk : p = k
      · subst hk
        simp [List.find?, hg]
      · have hmem : p ∈ ks := by
          cases hp with
          | head => exact absurd rfl hk
          | tail _ h => exact h
        have hbeq : (g (f k) == p) = false := by
          rw [hg]
          exact beq_eq_false_iff_ne.mpr (fun h => hk h.symm)
        simp only [List.map_cons, List.find?, hbeq]
        exact ih hmem

/-- C5 amended: the persisted provider aggregate stores the rounded sum for
emissions and energy but the rounded arithmetic mean (sum of the group's
values divided by its count, computed at write time) for renewable usage, AI
workload and PUE; the persisted location aggregate stores rounded means for
all three of its metrics; no count, minimum or maximum is stored. -/
theorem metrics_written_with_mixed_aggregators (now : ℕ)
    (df : List EmissionRow) (p loc : String)
    (hp : p ∈ (df.map (fun r => r.cloud_service_provider)).dedup) :
    (provider_metric now df p).total_emissions = round2
      (((df.filter (fun r => r.cloud_service_provider = p)).map
        (fun r => r.total_emissions)).sum) ∧
    (provider_metric now df p).renewable_energy_usage = round2
      (((df.filter (fun r => r.cloud_service_provider = p)).map
          (fun r => r.renewable_energy_usage)).sum /
        (((df.filter (fun r => r.cloud_service_provider = p)).length : ℚ))) ∧
    (location_metric now df loc).total_emissions = round2
      (((df.filter (fun r => r.location = loc)).map
          (fun r => r.total_emissions)).sum /
        (((df.filter (fun r => r.location = loc)).length : ℚ))) ∧
    (upload_provider_metrics now df).find? (fun m => m.provider == p) =
      some (provider_metric now df p) := by
  refine ⟨rfl, ?_, ?_, ?_⟩
  · simp [provider_metric, pdMean, List.length_map]
  · simp [location_metric, pdMean, List.length_map]
  · exact find_map_key _ _ _ (fun k => rfl) p hp

/-- Witness for C5 amended at the concrete dataset. -/
theorem metrics_written_with_mixed_aggregators_witness :
    "A" ∈ (dfC5.map (fun r => r.cloud_service_provider)).dedup ∧
    ((provider_metric 0 dfC5 "A").total_emissions = round2
      (((dfC5.filter (fun r => r.cloud_service_provider = "A")).map
        (fun r => r.total_emissions)).sum) ∧
    (provider_metric 0 dfC5 "A").renewable_energy_usage = round2
      (((dfC5.filter (fun r => r.cloud_service_provider = "A")).map
          (fun r => r.renewable_energy_usage)).sum /
        (((dfC5.filter (fun r => r.cloud_service_provider = "A")).length : ℚ))) ∧
    (location_metric 0 dfC5 "X").total_emissions = round2
      (((dfC5.filter (fun r => r.location = "X")).map
          (fun r => r.total_emissions)).sum /
        (((dfC5.filter (fun r => r.location = "X")).length : ℚ))) ∧
    (upload_provider_metrics 0 dfC5).find? (fun m => m.provider == "A") =
      some (provider_metric 0 dfC5 "A")) :=
  ⟨by decide, metrics_written_with_mixed_aggregators 0 dfC5 "A" "X" (by decide)⟩

/-! Embedding of `simulate_real_time_data` (realtime_monitor.py lines 96-117)
together with the module's import block (lines 1-11). -/

/-- Python exception for an unbound global name. -/
inductive PyError
  | nameError (n : String)
deriving DecidableEq, Repr

/-- Names bound at module level in `realtime_monitor.py`: the import block
(lines 1-11) plus the two top-level definitions.  `numpy` is never imported,
so `np` is not among them. -/
def realtimeMonitorBindings : List String :=
  ["os", "create_client", "Client", "load_dotenv", "pd", "datetime", "time",
    "json", "plt", "FuncAnimation", "sns", "clear_output",
    "RealtimeEmissionMonitor", "simulate_real_time_data"]

/-- Evaluates a global name under the module bindings: an unbound name raises
`NameError`, as in Python. -/
def lookupName (env : List String) (n : String) : Except PyError Unit :=
  if n ∈ env then Except.ok () else Except.error (PyError.nameError n)

/-- Record manipulated by the simulation loop (the fields it touches). -/
structure SimRecord where
  total_emissions : ℚ
  ai_workload : ℚ
  uploaded_at : ℕ
deriving DecidableEq, Repr

/-- Embeds one iteration of the `while True` loop of
`simulate_real_time_data` (lines 101-117) on an arbitrary sampled record:
stamp `uploaded_at`; evaluate `np.random.uniform` (which first resolves the
global name `np`) and scale `total_emissions`; likewise scale `ai_workload`;
finally insert the record into the `cloud_emissions` store.  The two random
draws are passed as the arguments `f1` and `f2`. -/
def simulate_iteration (env : List String) (r : SimRecord) (now : ℕ)
    (f1 f2 : ℚ) (store : List SimRecord) :
    Except PyError (List SimRecord) := do
  let r1 := { r with uploaded_at := now }
  let _ ← lookupName env "np"
  let r2 := { r1 with total_emissions := r1.total_emissions * (1 + f1) }
  let _ ← lookupName env "np"
  let r3 := { r2 with ai_workload := r2.ai_workload * (1 + f2) }
  Except.ok (store ++ [r3])

/-- C10: every iteration of `simulate_real_time_data` fails with a `NameError`
for the unbound name `np` while modifying the first record, before the insert
is reached: under the module's actual bindings the result is the `np`
`NameError` for every record, timestamp, pair of random draws and store, so
the store is never extended and no data point is ever inserted by the
simulation path. -/
theorem simulate_fails_before_insert (r : SimRecord) (now : ℕ) (f1 f2 : ℚ)
    (store : List SimRecord) :
    simulate_iteration realtimeMonitorBindings r now f1 f2 store =
      Except.error (PyError.nameError "np") ∧
    "np" ∉ realtimeMonitorBindings ∧
    (∀ s : List SimRecord,
      simulate_iteration realtimeMonitorBindings r now f1 f2 store ≠
        Except.ok s) := by
  have hnp : "np" ∉ realtimeMonitorBindings := by decide
  have h : simulate_iteration realtimeMonitorBindings r now f1 f2 store =
      Except.error (PyError.nameError "np") := by
    simp only [simulate_iteration, lookupName, if_neg hnp]
    rfl
  exact ⟨h, hnp, fun s hs => by simp [h] at hs⟩

end Decarb
